import Mathlib

/-!
Verification of the Energy-Ingestion-Engine service layer.

This file is a shallow embedding of the repository's ingestion and analytics
services (`src/services/ingestion.service.ts`, `src/services/analytics.service.ts`)
together with theorems settling the frozen specification claims.

Modelling conventions:
* SQL `DECIMAL` columns and JS numbers are modelled as `ℚ`; `TIMESTAMPTZ`
  values (and `new Date(x).getTime()`) as `ℤ` epoch milliseconds.
* The DB-managed audit columns `created_at` / `updated_at` (filled by
  `DEFAULT NOW()` / `@UpdateDateColumn`) and the `BIGSERIAL id` surrogate key of
  the history tables are omitted: no claim references them.
* The `status` data-quality column is kept; the service never sets it, so it is
  always the schema default `valid`.
* A TypeORM `dataSource.transaction` either commits all its statements or rolls
  every one of them back, so each transactional unit is modelled as a pure
  state transformer that is applied whole or not at all.  A failure of the
  underlying storage inside a unit is modelled by an explicit injection
  argument (`Option StorageError` for single-reading calls, `ℕ → Option
  StorageError` indexed by chunk number for batch calls); the services catch,
  log, and rethrow the error unchanged, which the model reflects by returning
  the injected error verbatim.
* The generated upsert statement is Postgres
  `INSERT ... ON CONFLICT (key) DO UPDATE SET ...` (the configured driver is
  `type: 'postgres'`).  For a multi-row statement Postgres raises error 21000
  ("ON CONFLICT DO UPDATE command cannot affect row a second time") when two
  inserted rows conflict with the same existing row, i.e. when two rows of one
  statement share the conflict key; the bulk-upsert model reproduces this.
-/

namespace EnergyEngine

/-- Enum `telemetry_status` of `init-db.sql`; the service layer never writes
anything but the default `valid`. -/
inductive TelemetryStatus
  | valid
  | anomaly
  | missing
deriving DecidableEq

/-- Dto `MeterTelemetryDto` (src/dto, unnamed part_000): one validated meter
reading. `timestamp` is the parsed ISO instant in epoch milliseconds. -/
structure MeterTelemetryDto where
  meterId : String
  kwhConsumedAc : ℚ
  voltage : ℚ
  timestamp : ℤ
deriving DecidableEq

/-- Dto `VehicleTelemetryDto` (src/dto, unnamed part_001): one validated vehicle
reading; `batteryTemp` is optional. -/
structure VehicleTelemetryDto where
  vehicleId : String
  soc : ℚ
  kwhDeliveredDc : ℚ
  batteryTemp : Option ℚ
  timestamp : ℤ
deriving DecidableEq

/-- A row of `current_meter_status` (entity `CurrentMeterStatus`). -/
structure CurrentMeterStatus where
  meterId : String
  kwhConsumedAc : ℚ
  voltage : ℚ
  lastUpdateTimestamp : ℤ
  status : TelemetryStatus
deriving DecidableEq

/-- A row of `current_vehicle_status` (entity `CurrentVehicleStatus`). -/
structure CurrentVehicleStatus where
  vehicleId : String
  soc : ℚ
  kwhDeliveredDc : ℚ
  batteryTemp : Option ℚ
  lastUpdateTimestamp : ℤ
  status : TelemetryStatus
deriving DecidableEq

/-- A row of `meter_telemetry_history` (entity `MeterTelemetryHistory`),
without the surrogate `id` and `created_at` audit column. -/
structure MeterTelemetryHistory where
  meterId : String
  kwhConsumedAc : ℚ
  voltage : ℚ
  timestamp : ℤ
  status : TelemetryStatus
deriving DecidableEq

/-- A row of `vehicle_telemetry_history` (entity `VehicleTelemetryHistory`). -/
structure VehicleTelemetryHistory where
  vehicleId : String
  soc : ℚ
  kwhDeliveredDc : ℚ
  batteryTemp : Option ℚ
  timestamp : ℤ
  status : TelemetryStatus
deriving DecidableEq

/-- The four tables the service layer touches.  The history tables are
append-only lists in insertion order; the current-status tables hold at most
one row per device key. -/
structure Database where
  currentMeter : List CurrentMeterStatus
  currentVehicle : List CurrentVehicleStatus
  meterHistory : List MeterTelemetryHistory
  vehicleHistory : List VehicleTelemetryHistory
deriving DecidableEq

/-- The empty database (state right after `init-db.sql`). -/
def emptyDb : Database := ⟨[], [], [], []⟩

/-- Errors surfaced by a transactional unit.  `transient` models an underlying
storage failure (connection loss, timeout, missing partition, ...);
`onConflictCardinalityViolation` is Postgres error 21000, raised by a
multi-row `ON CONFLICT DO UPDATE` statement whose inserted rows conflict with
one target row twice. -/
inductive StorageError
  | transient (msg : String)
  | onConflictCardinalityViolation
deriving DecidableEq

/-! ### Keyed current-status tables

Postgres `INSERT ... ON CONFLICT (key) DO UPDATE` semantics for a single row:
insert if the key is absent, otherwise overwrite the listed columns of the
existing row.  Since the embedding omits the untouched `created_at` column,
the overwrite replaces the whole row. -/

/-- One-row upsert into a table keyed by `key`. -/
def upsertByKey {σ : Type} (key : σ → String) (tbl : List σ) (row : σ) : List σ :=
  if tbl.any (fun x => key x == key row) then
    tbl.map (fun x => if key x == key row then row else x)
  else
    tbl ++ [row]

/-- Primary-key lookup in a table keyed by `key`. -/
def lookupByKey {σ : Type} (key : σ → String) (tbl : List σ) (k : String) : Option σ :=
  tbl.find? (fun x => key x == k)

theorem find?_append_singleton_ne {σ : Type} (q : σ → Bool) (row : σ)
    (h : q row = false) (tbl : List σ) : (tbl ++ [row]).find? q = tbl.find? q := by
  induction tbl with
  | nil => simp [List.find?_cons, h]
  | cons x xs ih =>
    simp only [List.cons_append, List.find?_cons]
    cases hx : q x with
    | true => rfl
    | false => exact ih

theorem find?_append_of_all_neg {σ : Type} (q : σ → Bool) (tbl l2 : List σ)
    (h : tbl.any q = false) : (tbl ++ l2).find? q = l2.find? q := by
  induction tbl with
  | nil => rfl
  | cons x xs ih =>
    simp only [List.any_cons, Bool.or_eq_false_iff] at h
    simp only [List.cons_append, List.find?_cons, h.1]
    exact ih h.2

theorem find?_map_upsert_true {σ : Type} (key : σ → String) (row : σ)
    (tbl : List σ) (h : tbl.any (fun x => key x == key row) = true) :
    (tbl.map (fun x => if key x == key row then row else x)).find?
        (fun x => key x == key row) = some row := by
  induction tbl with
  | nil => simp at h
  | cons x xs ih =>
    simp only [List.any_cons, Bool.or_eq_true] at h
    by_cases hx : (key x == key row) = true
    · have hxeq : key x = key row := by simpa using hx
      simp [List.find?_cons, hxeq]
    · simp only [Bool.not_eq_true] at hx
      have hxs : xs.any (fun x => key x == key row) = true := by
        rcases h with h | h
        · rw [hx] at h; cases h
        · exact h
      rw [List.map_cons, if_neg (by simp [hx]), List.find?_cons, hx]
      exact ih hxs

theorem find?_map_upsert_ne {σ : Type} (key : σ → String) (row : σ)
    (k : String) (hk : k ≠ key row) (tbl : List σ) :
    (tbl.map (fun x => if key x == key row then row else x)).find?
        (fun x => key x == k) = tbl.find? (fun x => key x == k) := by
  induction tbl with
  | nil => rfl
  | cons x xs ih =>
    have hrowk : (key row == k) = false := by
      simp only [beq_eq_false_iff_ne, ne_eq]
      exact fun hrk => hk hrk.symm
    by_cases hx : (key x == key row) = true
    · have hxeq : key x = key row := by simpa using hx
      have hxk : (key x == k) = false := by rw [hxeq]; exact hrowk
      rw [List.map_cons, if_pos hx, List.find?_cons, hrowk, List.find?_cons, hxk]
      exact ih
    · simp only [Bool.not_eq_true] at hx
      rw [List.map_cons, if_neg (by simp [hx]), List.find?_cons, List.find?_cons]
      cases hxk : (key x == k) with
      | true => rfl
      | false => exact ih

theorem lookupByKey_upsertByKey_self {σ : Type} (key : σ → String)
    (tbl : List σ) (row : σ) :
    lookupByKey key (upsertByKey key tbl row) (key row) = some row := by
  unfold lookupByKey upsertByKey
  by_cases h : tbl.any (fun x => key x == key row) = true
  · simp only [h, if_true]
    exact find?_map_upsert_true key row tbl h
  · simp only [Bool.not_eq_true] at h
    simp only [h, Bool.false_eq_true, if_false]
    rw [find?_append_of_all_neg _ _ _ h]
    simp [List.find?_cons]

theorem lookupByKey_upsertByKey_ne {σ : Type} (key : σ → String)
    (tbl : List σ) (row : σ) (k : String) (hk : k ≠ key row) :
    lookupByKey key (upsertByKey key tbl row) k = lookupByKey key tbl k := by
  unfold lookupByKey upsertByKey
  by_cases h : tbl.any (fun x => key x == key row) = true
  · simp only [h, if_true]
    exact find?_map_upsert_ne key row k hk tbl
  · simp only [Bool.not_eq_true] at h
    simp only [h, Bool.false_eq_true, if_false]
    have hrowk : (key row == k) = false := by
      simp only [beq_eq_false_iff_ne, ne_eq]
      exact fun hrk => hk hrk.symm
    exact find?_append_singleton_ne _ row hrowk tbl

/-! ### Single-reading ingestion (`IngestionService`) -/

/-- The `values` object of the hot-path upsert in `ingestMeterTelemetry`. -/
def mkCurrentMeterStatus (d : MeterTelemetryDto) : CurrentMeterStatus :=
  { meterId := d.meterId
    kwhConsumedAc := d.kwhConsumedAc
    voltage := d.voltage
    lastUpdateTimestamp := d.timestamp
    status := .valid }

/-- The `values` object of the cold-path insert in `ingestMeterTelemetry`. -/
def mkMeterHistoryRow (d : MeterTelemetryDto) : MeterTelemetryHistory :=
  { meterId := d.meterId
    kwhConsumedAc := d.kwhConsumedAc
    voltage := d.voltage
    timestamp := d.timestamp
    status := .valid }

/-- The `values` object of the hot-path upsert in `ingestVehicleTelemetry`
(`batteryTemp: data.batteryTemp ?? null`). -/
def mkCurrentVehicleStatus (d : VehicleTelemetryDto) : CurrentVehicleStatus :=
  { vehicleId := d.vehicleId
    soc := d.soc
    kwhDeliveredDc := d.kwhDeliveredDc
    batteryTemp := d.batteryTemp
    lastUpdateTimestamp := d.timestamp
    status := .valid }

/-- The `values` object of the cold-path insert in `ingestVehicleTelemetry`. -/
def mkVehicleHistoryRow (d : VehicleTelemetryDto) : VehicleTelemetryHistory :=
  { vehicleId := d.vehicleId
    soc := d.soc
    kwhDeliveredDc := d.kwhDeliveredDc
    batteryTemp := d.batteryTemp
    timestamp := d.timestamp
    status := .valid }

/-- Method `IngestionService.ingestMeterTelemetry`: one transaction upserting
`current_meter_status` and appending to `meter_telemetry_history`.  `fail`
injects an underlying storage failure of the transaction; on failure the
transaction rolls back (state unchanged) and the error is rethrown. -/
def ingestMeterTelemetry (d : MeterTelemetryDto) (fail : Option StorageError)
    (db : Database) : Database × Option StorageError :=
  match fail with
  | some e => (db, some e)
  | none =>
      ({ db with
          currentMeter := upsertByKey (·.meterId) db.currentMeter (mkCurrentMeterStatus d)
          meterHistory := db.meterHistory ++ [mkMeterHistoryRow d] },
        none)

/-- Method `IngestionService.ingestVehicleTelemetry`, same dual-path transaction for
the vehicle tables. -/
def ingestVehicleTelemetry (d : VehicleTelemetryDto) (fail : Option StorageError)
    (db : Database) : Database × Option StorageError :=
  match fail with
  | some e => (db, some e)
  | none =>
      ({ db with
          currentVehicle := upsertByKey (·.vehicleId) db.currentVehicle (mkCurrentVehicleStatus d)
          vehicleHistory := db.vehicleHistory ++ [mkVehicleHistoryRow d] },
        none)

/-- Claim C1: applying a single reading performs the current-status upsert and
the history insert inside one atomic unit: a successful call appends exactly
one new history row carrying the reading's field values and leaves the
current-status row of the reading's device id holding those same values (for
both the meter and the vehicle path); a failed call returns the state with
neither store changed. -/
theorem single_ingestion_atomic (dm : MeterTelemetryDto) (dv : VehicleTelemetryDto)
    (db : Database) :
    ((ingestMeterTelemetry dm none db).2 = none ∧
      (ingestMeterTelemetry dm none db).1.meterHistory
        = db.meterHistory ++ [mkMeterHistoryRow dm] ∧
      mkMeterHistoryRow dm
        = { meterId := dm.meterId, kwhConsumedAc := dm.kwhConsumedAc,
            voltage := dm.voltage, timestamp := dm.timestamp, status := .valid } ∧
      lookupByKey (·.meterId) (ingestMeterTelemetry dm none db).1.currentMeter dm.meterId
        = some (mkCurrentMeterStatus dm) ∧
      mkCurrentMeterStatus dm
        = { meterId := dm.meterId, kwhConsumedAc := dm.kwhConsumedAc,
            voltage := dm.voltage, lastUpdateTimestamp := dm.timestamp, status := .valid } ∧
      (ingestMeterTelemetry dm none db).1.vehicleHistory = db.vehicleHistory ∧
      (ingestMeterTelemetry dm none db).1.currentVehicle = db.currentVehicle) ∧
    (∀ e, ingestMeterTelemetry dm (some e) db = (db, some e)) ∧
    ((ingestVehicleTelemetry dv none db).2 = none ∧
      (ingestVehicleTelemetry dv none db).1.vehicleHistory
        = db.vehicleHistory ++ [mkVehicleHistoryRow dv] ∧
      mkVehicleHistoryRow dv
        = { vehicleId := dv.vehicleId, soc := dv.soc,
            kwhDeliveredDc := dv.kwhDeliveredDc, batteryTemp := dv.batteryTemp,
            timestamp := dv.timestamp, status := .valid } ∧
      lookupByKey (·.vehicleId) (ingestVehicleTelemetry dv none db).1.currentVehicle dv.vehicleId
        = some (mkCurrentVehicleStatus dv) ∧
      (ingestVehicleTelemetry dv none db).1.meterHistory = db.meterHistory ∧
      (ingestVehicleTelemetry dv none db).1.currentMeter = db.currentMeter) ∧
    (∀ e, ingestVehicleTelemetry dv (some e) db = (db, some e)) := by
  refine ⟨⟨rfl, rfl, rfl, ?_, rfl, rfl, rfl⟩, fun e => rfl, ⟨rfl, rfl, rfl, ?_, rfl, rfl⟩,
    fun e => rfl⟩
  · show lookupByKey (·.meterId)
      (upsertByKey (·.meterId) db.currentMeter (mkCurrentMeterStatus dm)) dm.meterId
      = some (mkCurrentMeterStatus dm)
    simpa using lookupByKey_upsertByKey_self (·.meterId) db.currentMeter (mkCurrentMeterStatus dm)
  · show lookupByKey (·.vehicleId)
      (upsertByKey (·.vehicleId) db.currentVehicle (mkCurrentVehicleStatus dv)) dv.vehicleId
      = some (mkCurrentVehicleStatus dv)
    simpa using lookupByKey_upsertByKey_self (·.vehicleId) db.currentVehicle
      (mkCurrentVehicleStatus dv)

/-- Claim C5: the current-status upsert carries no timestamp guard.  Applying
reading `a` and then reading `b` for the same device id leaves the
current-status row holding `b`'s values even when `b`'s application-level
timestamp is older, while the history table keeps both rows in application
order.  Stated for both device classes. -/
theorem last_applied_wins (a b : MeterTelemetryDto) (av bv : VehicleTelemetryDto)
    (db : Database)
    (hid : a.meterId = b.meterId) (ht : b.timestamp < a.timestamp)
    (hidv : av.vehicleId = bv.vehicleId) (htv : bv.timestamp < av.timestamp) :
    (lookupByKey (·.meterId)
        ((ingestMeterTelemetry b none (ingestMeterTelemetry a none db).1).1).currentMeter
        a.meterId = some (mkCurrentMeterStatus b) ∧
      ((ingestMeterTelemetry b none (ingestMeterTelemetry a none db).1).1).meterHistory
        = db.meterHistory ++ [mkMeterHistoryRow a, mkMeterHistoryRow b]) ∧
    (lookupByKey (·.vehicleId)
        ((ingestVehicleTelemetry bv none (ingestVehicleTelemetry av none db).1).1).currentVehicle
        av.vehicleId = some (mkCurrentVehicleStatus bv) ∧
      ((ingestVehicleTelemetry bv none (ingestVehicleTelemetry av none db).1).1).vehicleHistory
        = db.vehicleHistory ++ [mkVehicleHistoryRow av, mkVehicleHistoryRow bv]) := by
  refine ⟨⟨?_, by simp [ingestMeterTelemetry]⟩, ⟨?_, by simp [ingestVehicleTelemetry]⟩⟩
  · rw [hid]
    exact lookupByKey_upsertByKey_self (·.meterId) _ (mkCurrentMeterStatus b)
  · rw [hidv]
    exact lookupByKey_upsertByKey_self (·.vehicleId) _ (mkCurrentVehicleStatus bv)

/-- Witness for `last_applied_wins` at concrete readings with
`b.timestamp < a.timestamp`. -/
theorem last_applied_wins_witness :
    lookupByKey (·.meterId)
        ((ingestMeterTelemetry ⟨"METER_001", 7, 240, 500⟩ none
          (ingestMeterTelemetry ⟨"METER_001", 5, 230, 900⟩ none emptyDb).1).1).currentMeter
        "METER_001"
      = some (mkCurrentMeterStatus ⟨"METER_001", 7, 240, 500⟩) := by
  exact (last_applied_wins ⟨"METER_001", 5, 230, 900⟩ ⟨"METER_001", 7, 240, 500⟩
    ⟨"VEHICLE_001", 50, 3, none, 900⟩ ⟨"VEHICLE_001", 60, 4, none, 500⟩ emptyDb
    rfl (by decide) rfl (by decide)).1.1

/-! ### Batch ingestion (`IngestionService.ingestMeterBatch` /
`ingestVehicleBatch`)

The source iterates `for (let i = 0; i < readings.length; i += batchSize)`
with `batchSize = 1000`, slices `readings.slice(i, i + batchSize)`, and runs
one transaction per slice: a bulk upsert of the chunk's current-status rows
followed by a bulk insert of the chunk's history rows.  A thrown error stops
the loop; chunks already committed stay committed and the error is rethrown
unchanged (no retry, no progress information attached). -/

/-- The hard-coded `batchSize = 1000` of both batch methods. -/
def batchSize : ℕ := 1000

/-- The consecutive slices `readings.slice(i, i + batchSize)` taken by the
batch loop, in order. -/
def chunksOf {α : Type} (l : List α) : List (List α) :=
  if h : l.isEmpty then [] else l.take batchSize :: chunksOf (l.drop batchSize)
termination_by l.length
decreasing_by
  have hne : l ≠ [] := by simpa [List.isEmpty_iff] using h
  have hpos : 0 < l.length := List.length_pos.mpr hne
  simp only [List.length_drop, batchSize]
  omega

theorem chunksOf_nil {α : Type} : chunksOf ([] : List α) = [] := by
  unfold chunksOf
  rfl

theorem chunksOf_cons {α : Type} (l : List α) (h : l ≠ []) :
    chunksOf l = l.take batchSize :: chunksOf (l.drop batchSize) := by
  conv_lhs => unfold chunksOf
  simp [h]

/-- Re-joining the slices gives back the input: the batch loop covers every
reading exactly once, in order. -/
theorem chunksOf_flatten {α : Type} (l : List α) : (chunksOf l).flatten = l := by
  by_cases h : l = []
  · subst h; simp [chunksOf_nil]
  · rw [chunksOf_cons l h]
    have ih := chunksOf_flatten (l.drop batchSize)
    simp [ih]
termination_by l.length
decreasing_by
  have hpos : 0 < l.length := List.length_pos.mpr h
  simp only [List.length_drop, batchSize]
  omega

/-- Every slice is nonempty and no longer than `batchSize`. -/
theorem chunksOf_mem_length {α : Type} (l : List α) :
    ∀ c ∈ chunksOf l, c ≠ [] ∧ c.length ≤ batchSize := by
  by_cases h : l = []
  · subst h; simp [chunksOf_nil]
  · rw [chunksOf_cons l h]
    intro c hc
    rcases List.mem_cons.mp hc with hc | hc
    · subst hc
      constructor
      · have hpos : 0 < l.length := List.length_pos.mpr h
        have : 0 < (l.take batchSize).length := by
          simp only [List.length_take]
          simp [batchSize]
          omega
        exact List.ne_nil_of_length_pos this
      · simp [List.length_take]
    · exact chunksOf_mem_length (l.drop batchSize) c hc
termination_by l.length
decreasing_by
  have hpos : 0 < l.length := List.length_pos.mpr h
  simp only [List.length_drop, batchSize]
  omega

/-- The sequential chunk loop shared by both batch methods: `inj k` injects an
underlying storage failure into the transaction of chunk number `k` (0-based);
`applyChunk` is the per-chunk transaction body.  On the first failing chunk
the loop stops with that chunk's transaction rolled back and the error is
returned unchanged; otherwise all chunks are applied in order. -/
def runChunks {ρ : Type} (applyChunk : List ρ → Database → Except StorageError Database)
    (inj : ℕ → Option StorageError) :
    ℕ → Database → List (List ρ) → Database × Option StorageError
  | _, db, [] => (db, none)
  | k, db, c :: cs =>
      match inj k with
      | some e => (db, some e)
      | none =>
          match applyChunk c db with
          | .error e => (db, some e)
          | .ok db' => runChunks applyChunk inj (k + 1) db' cs

/-- One transaction of `ingestMeterBatch`: the multi-row
`INSERT ... ON CONFLICT (meter_id) DO UPDATE` followed by the multi-row
history insert.  Postgres raises error 21000 when two rows of the bulk upsert
share a `meter_id`; otherwise the statement upserts the rows in order. -/
def applyMeterChunk (batch : List MeterTelemetryDto) (db : Database) :
    Except StorageError Database :=
  if (batch.map (·.meterId)).Nodup then
    .ok { db with
      currentMeter :=
        (batch.map mkCurrentMeterStatus).foldl (upsertByKey (·.meterId)) db.currentMeter
      meterHistory := db.meterHistory ++ batch.map mkMeterHistoryRow }
  else
    .error .onConflictCardinalityViolation

/-- One transaction of `ingestVehicleBatch`, over the vehicle tables. -/
def applyVehicleChunk (batch : List VehicleTelemetryDto) (db : Database) :
    Except StorageError Database :=
  if (batch.map (·.vehicleId)).Nodup then
    .ok { db with
      currentVehicle :=
        (batch.map mkCurrentVehicleStatus).foldl (upsertByKey (·.vehicleId)) db.currentVehicle
      vehicleHistory := db.vehicleHistory ++ batch.map mkVehicleHistoryRow }
  else
    .error .onConflictCardinalityViolation

/-- Method `IngestionService.ingestMeterBatch`. -/
def ingestMeterBatch (readings : List MeterTelemetryDto)
    (inj : ℕ → Option StorageError) (db : Database) : Database × Option StorageError :=
  runChunks applyMeterChunk inj 0 db (chunksOf readings)

/-- Method `IngestionService.ingestVehicleBatch`. -/
def ingestVehicleBatch (readings : List VehicleTelemetryDto)
    (inj : ℕ → Option StorageError) (db : Database) : Database × Option StorageError :=
  runChunks applyVehicleChunk inj 0 db (chunksOf readings)

/-- Failure injection that fails exactly the transaction of chunk `k`. -/
def failAt (k : ℕ) (e : StorageError) : ℕ → Option StorageError :=
  fun i => if i = k then some e else none

/-! ### Generic facts about the chunk loop -/

theorem runChunks_inj_head {ρ : Type}
    (applyChunk : List ρ → Database → Except StorageError Database)
    (inj : ℕ → Option StorageError) (k : ℕ) (db : Database)
    (c : List ρ) (cs : List (List ρ)) (e : StorageError) (h : inj k = some e) :
    runChunks applyChunk inj k db (c :: cs) = (db, some e) := by
  simp [runChunks, h]

theorem runChunks_err_head {ρ : Type}
    (applyChunk : List ρ → Database → Except StorageError Database)
    (inj : ℕ → Option StorageError) (k : ℕ) (db : Database)
    (c : List ρ) (cs : List (List ρ)) (e : StorageError)
    (h1 : inj k = none) (h2 : applyChunk c db = .error e) :
    runChunks applyChunk inj k db (c :: cs) = (db, some e) := by
  simp [runChunks, h1, h2]

theorem runChunks_ok_head {ρ : Type}
    (applyChunk : List ρ → Database → Except StorageError Database)
    (inj : ℕ → Option StorageError) (k : ℕ) (db db' : Database)
    (c : List ρ) (cs : List (List ρ))
    (h1 : inj k = none) (h2 : applyChunk c db = .ok db') :
    runChunks applyChunk inj k db (c :: cs) = runChunks applyChunk inj (k + 1) db' cs := by
  simp [runChunks, h1, h2]

/-- Any database measure that no committed chunk decreases is not decreased by
the whole loop, wherever the loop stops. -/
theorem runChunks_measure_mono {ρ : Type} (μ : Database → ℕ)
    (applyChunk : List ρ → Database → Except StorageError Database)
    (happly : ∀ c db db', applyChunk c db = .ok db' → μ db ≤ μ db')
    (inj : ℕ → Option StorageError) :
    ∀ (cs : List (List ρ)) (k : ℕ) (db : Database),
      μ db ≤ μ (runChunks applyChunk inj k db cs).1 := by
  intro cs
  induction cs with
  | nil => intro k db; simp [runChunks]
  | cons c cs ih =>
    intro k db
    cases hinj : inj k with
    | some e => simp [runChunks_inj_head _ _ _ _ _ _ _ hinj]
    | none =>
      cases happ : applyChunk c db with
      | error e => simp [runChunks_err_head _ _ _ _ _ _ _ hinj happ]
      | ok db' =>
        rw [runChunks_ok_head _ _ _ _ _ _ _ hinj happ]
        exact le_trans (happly c db db' happ) (ih (k + 1) db')

/-- If the loop reports success, every chunk was committed exactly once, so a
measure that each chunk grows by its length grows by the total length. -/
theorem runChunks_success_measure {ρ : Type} (μ : Database → ℕ)
    (applyChunk : List ρ → Database → Except StorageError Database)
    (happly : ∀ c db db', applyChunk c db = .ok db' → μ db' = μ db + c.length)
    (inj : ℕ → Option StorageError) :
    ∀ (cs : List (List ρ)) (k : ℕ) (db : Database),
      (runChunks applyChunk inj k db cs).2 = none →
      μ (runChunks applyChunk inj k db cs).1 = μ db + cs.flatten.length := by
  intro cs
  induction cs with
  | nil => intro k db _; simp [runChunks]
  | cons c cs ih =>
    intro k db hok
    cases hinj : inj k with
    | some e =>
      rw [runChunks_inj_head _ _ _ _ _ _ _ hinj] at hok
      cases hok
    | none =>
      cases happ : applyChunk c db with
      | error e =>
        rw [runChunks_err_head _ _ _ _ _ _ _ hinj happ] at hok
        cases hok
      | ok db' =>
        rw [runChunks_ok_head _ _ _ _ _ _ _ hinj happ] at hok ⊢
        rw [ih (k + 1) db' hok, happly c db db' happ]
        simp [List.length_append]
        omega

/-- A database property preserved by every committed chunk is preserved by the
whole loop. -/
theorem runChunks_invariant {ρ : Type} (P : Database → Prop)
    (applyChunk : List ρ → Database → Except StorageError Database)
    (happly : ∀ c db db', applyChunk c db = .ok db' → P db → P db')
    (inj : ℕ → Option StorageError) :
    ∀ (cs : List (List ρ)) (k : ℕ) (db : Database),
      P db → P (runChunks applyChunk inj k db cs).1 := by
  intro cs
  induction cs with
  | nil => intro k db h; simpa [runChunks] using h
  | cons c cs ih =>
    intro k db h
    cases hinj : inj k with
    | some e => simpa [runChunks_inj_head _ _ _ _ _ _ _ hinj] using h
    | none =>
      cases happ : applyChunk c db with
      | error e => simpa [runChunks_err_head _ _ _ _ _ _ _ hinj happ] using h
      | ok db' =>
        rw [runChunks_ok_head _ _ _ _ _ _ _ hinj happ]
        exact ih (k + 1) db' (happly c db db' happ h)

/-! ### Per-chunk transaction facts -/

theorem applyMeterChunk_ok (batch : List MeterTelemetryDto) (db : Database)
    (h : (batch.map (·.meterId)).Nodup) :
    applyMeterChunk batch db = .ok { db with
      currentMeter :=
        (batch.map mkCurrentMeterStatus).foldl (upsertByKey (·.meterId)) db.currentMeter
      meterHistory := db.meterHistory ++ batch.map mkMeterHistoryRow } := by
  simp [applyMeterChunk, h]

theorem applyVehicleChunk_ok (batch : List VehicleTelemetryDto) (db : Database)
    (h : (batch.map (·.vehicleId)).Nodup) :
    applyVehicleChunk batch db = .ok { db with
      currentVehicle :=
        (batch.map mkCurrentVehicleStatus).foldl (upsertByKey (·.vehicleId)) db.currentVehicle
      vehicleHistory := db.vehicleHistory ++ batch.map mkVehicleHistoryRow } := by
  simp [applyVehicleChunk, h]

theorem applyMeterChunk_ok_elim (batch : List MeterTelemetryDto) (db db' : Database)
    (h : applyMeterChunk batch db = .ok db') :
    db'.currentMeter
        = (batch.map mkCurrentMeterStatus).foldl (upsertByKey (·.meterId)) db.currentMeter ∧
      db'.meterHistory = db.meterHistory ++ batch.map mkMeterHistoryRow ∧
      db'.currentVehicle = db.currentVehicle ∧
      db'.vehicleHistory = db.vehicleHistory := by
  unfold applyMeterChunk at h
  split at h
  · cases h
    exact ⟨rfl, rfl, rfl, rfl⟩
  · cases h

theorem applyVehicleChunk_ok_elim (batch : List VehicleTelemetryDto) (db db' : Database)
    (h : applyVehicleChunk batch db = .ok db') :
    db'.currentVehicle
        = (batch.map mkCurrentVehicleStatus).foldl (upsertByKey (·.vehicleId)) db.currentVehicle ∧
      db'.vehicleHistory = db.vehicleHistory ++ batch.map mkVehicleHistoryRow ∧
      db'.currentMeter = db.currentMeter ∧
      db'.meterHistory = db.meterHistory := by
  unfold applyVehicleChunk at h
  split at h
  · cases h
    exact ⟨rfl, rfl, rfl, rfl⟩
  · cases h

/-! ### Lookup through a bulk upsert -/

theorem lookupByKey_foldl_upsert_not_mem {σ : Type} (key : σ → String)
    (rows : List σ) :
    ∀ (tbl : List σ) (k : String), (∀ r ∈ rows, key r ≠ k) →
      lookupByKey key (rows.foldl (upsertByKey key) tbl) k = lookupByKey key tbl k := by
  induction rows with
  | nil => intro tbl k _; rfl
  | cons r rest ih =>
    intro tbl k h
    rw [List.foldl_cons, ih (upsertByKey key tbl r) k (fun x hx => h x (List.mem_cons_of_mem r hx))]
    exact lookupByKey_upsertByKey_ne key tbl r k
      (fun hk => h r (List.mem_cons_self r rest) hk.symm)

theorem lookupByKey_foldl_upsert_self {σ : Type} (key : σ → String)
    (rows : List σ) :
    ∀ (tbl : List σ), (rows.map key).Nodup →
      ∀ r ∈ rows, lookupByKey key (rows.foldl (upsertByKey key) tbl) (key r) = some r := by
  induction rows with
  | nil => intro tbl _ r hr; cases hr
  | cons x rest ih =>
    intro tbl hnd r hr
    simp only [List.map_cons, List.nodup_cons] at hnd
    rcases List.mem_cons.mp hr with h | h
    · subst h
      rw [List.foldl_cons,
        lookupByKey_foldl_upsert_not_mem key rest (upsertByKey key tbl r) (key r)
          (fun r' hr' heq => hnd.1 (heq ▸ List.mem_map_of_mem key hr'))]
      exact lookupByKey_upsertByKey_self key tbl r
    · rw [List.foldl_cons]
      exact ih (upsertByKey key tbl x) hnd.2 r h

/-! ### Concrete batch inputs and evaluation helpers -/

theorem chunksOf_single {α : Type} (l : List α) (h1 : l ≠ [])
    (h2 : l.length ≤ batchSize) : chunksOf l = [l] := by
  rw [chunksOf_cons l h1, List.take_of_length_le h2, List.drop_eq_nil_of_le h2, chunksOf_nil]

/-- A telemetry reading family with pairwise distinct meter ids, used to
exercise the batch path on concrete inputs. -/
def demoMeterReading (i : ℕ) : MeterTelemetryDto :=
  { meterId := String.mk (List.replicate i 'M')
    kwhConsumedAc := 1
    voltage := 240
    timestamp := 0 }

/-- The first `n` demo readings. -/
def demoMeterReadings (n : ℕ) : List MeterTelemetryDto :=
  (List.range n).map demoMeterReading

theorem demoMeterReading_meterId_injective :
    Function.Injective fun i => (demoMeterReading i).meterId := by
  intro a b hab
  have h2 : List.replicate a 'M' = List.replicate b 'M' := congrArg String.data hab
  have h3 := congrArg List.length h2
  simpa using h3

theorem demoMeterReadings_length (n : ℕ) : (demoMeterReadings n).length = n := by
  simp [demoMeterReadings]

theorem demoMeterReadings_take_nodup (n : ℕ) :
    (((demoMeterReadings n).take batchSize).map (·.meterId)).Nodup := by
  have h1 : ((demoMeterReadings n).take batchSize).map (·.meterId)
      = (List.range (min batchSize n)).map (fun i => (demoMeterReading i).meterId) := by
    rw [demoMeterReadings, ← List.map_take, List.take_range, List.map_map]
    rfl
  rw [h1]
  exact (List.nodup_range _).map demoMeterReading_meterId_injective

/-! ### Failure placement in the batch loop -/

/-- A failure injected into the very first chunk's transaction aborts the
whole call before anything is committed; the caller sees the unchanged state
and the storage error verbatim. -/
theorem ingestMeterBatch_fail_unit1 (rs : List MeterTelemetryDto) (db : Database)
    (e : StorageError) (h : rs ≠ []) :
    ingestMeterBatch rs (failAt 0 e) db = (db, some e) := by
  rw [ingestMeterBatch, chunksOf_cons rs h]
  exact runChunks_inj_head _ _ _ _ _ _ _ rfl

/-- A failure injected into the second chunk's transaction leaves exactly the
first chunk committed (its 1000 current-status upserts and 1000 history
inserts applied once) and returns the storage error verbatim. -/
theorem ingestMeterBatch_fail_unit2 (rs : List MeterTelemetryDto) (db : Database)
    (e : StorageError) (hlen : batchSize < rs.length)
    (hnodup : ((rs.take batchSize).map (·.meterId)).Nodup) :
    ingestMeterBatch rs (failAt 1 e) db
      = ({ db with
            currentMeter := ((rs.take batchSize).map mkCurrentMeterStatus).foldl
              (upsertByKey (·.meterId)) db.currentMeter
            meterHistory := db.meterHistory ++ (rs.take batchSize).map mkMeterHistoryRow },
          some e) := by
  have h1 : rs ≠ [] := by
    intro hrs
    rw [hrs] at hlen
    simp [batchSize] at hlen
  have h2 : rs.drop batchSize ≠ [] := by
    intro hrs
    have := congrArg List.length hrs
    simp only [List.length_drop, List.length_nil] at this
    omega
  rw [ingestMeterBatch, chunksOf_cons rs h1, chunksOf_cons _ h2]
  rw [runChunks_ok_head _ _ _ _ _ _ _ rfl (applyMeterChunk_ok _ db hnodup)]
  exact runChunks_inj_head _ _ _ _ _ _ _ rfl

/-- Claim C2: batch ingestion partitions its input into consecutive chunks of
`batchSize = 1000` readings, each applied as one atomic transaction,
sequentially.  A 2500-reading batch runs exactly 3 such units; if unit 2
fails, exactly the 1000 history rows of unit 1 are committed (once each) and
the remaining units are never applied, while a fully successful run commits
all 2500 history rows. -/
theorem batch_chunking (rs : List MeterTelemetryDto) (db : Database)
    (e : StorageError) (hlen : rs.length = 2500)
    (hnodup : ((rs.take batchSize).map (·.meterId)).Nodup) :
    (∀ l : List MeterTelemetryDto, (chunksOf l).flatten = l) ∧
    (∀ l : List MeterTelemetryDto, ∀ c ∈ chunksOf l, c ≠ [] ∧ c.length ≤ batchSize) ∧
    (chunksOf rs).length = 3 ∧
    (ingestMeterBatch rs (failAt 1 e) db).2 = some e ∧
    (ingestMeterBatch rs (failAt 1 e) db).1.meterHistory
      = db.meterHistory ++ (rs.take batchSize).map mkMeterHistoryRow ∧
    (ingestMeterBatch rs (failAt 1 e) db).1.meterHistory.length
      = db.meterHistory.length + 1000 ∧
    (∀ inj, (ingestMeterBatch rs inj db).2 = none →
      (ingestMeterBatch rs inj db).1.meterHistory.length
        = db.meterHistory.length + 2500) := by
  have hne1 : rs ≠ [] := by
    intro h; rw [h] at hlen; cases hlen
  have hlen2 : (rs.drop batchSize).length = 1500 := by
    simp only [List.length_drop, hlen, batchSize]
  have hne2 : rs.drop batchSize ≠ [] := by
    intro h; rw [h] at hlen2; cases hlen2
  have hlen3 : ((rs.drop batchSize).drop batchSize).length = 500 := by
    simp only [List.length_drop, batchSize]
    omega
  have hne3 : (rs.drop batchSize).drop batchSize ≠ [] := by
    intro h; rw [h] at hlen3; cases hlen3
  have hnil4 : ((rs.drop batchSize).drop batchSize).drop batchSize = [] := by
    have h0 : (((rs.drop batchSize).drop batchSize).drop batchSize).length = 0 := by
      simp only [List.length_drop, batchSize]
      omega
    exact List.eq_nil_of_length_eq_zero h0
  have hchunks : chunksOf rs
      = [rs.take batchSize, (rs.drop batchSize).take batchSize,
          ((rs.drop batchSize).drop batchSize).take batchSize] := by
    rw [chunksOf_cons rs hne1, chunksOf_cons _ hne2, chunksOf_cons _ hne3, hnil4, chunksOf_nil]
  have hfail := ingestMeterBatch_fail_unit2 rs db e (by rw [hlen]; simp [batchSize]) hnodup
  have htakelen : (rs.take batchSize).length = 1000 := by
    simp [List.length_take, hlen, batchSize]
  refine ⟨chunksOf_flatten, fun l => chunksOf_mem_length l, ?_, ?_, ?_, ?_, ?_⟩
  · rw [hchunks]; rfl
  · rw [hfail]
  · rw [hfail]
  · rw [hfail]
    simp only [List.length_append, List.length_map, htakelen]
  · intro inj hok
    have hgrow : ∀ (c : List MeterTelemetryDto) (d d' : Database),
        applyMeterChunk c d = .ok d' →
        d'.meterHistory.length = d.meterHistory.length + c.length := by
      intro c d d' h
      rw [(applyMeterChunk_ok_elim c d d' h).2.1]
      simp
    have hm := runChunks_success_measure (fun d => d.meterHistory.length)
      applyMeterChunk hgrow inj (chunksOf rs) 0 db hok
    simp only [chunksOf_flatten, hlen] at hm
    exact hm

/-- Witness for `batch_chunking`: a concrete 2500-reading batch with distinct
meter ids, failing in unit 2. -/
theorem batch_chunking_witness :
    (chunksOf (demoMeterReadings 2500)).length = 3 ∧
    (ingestMeterBatch (demoMeterReadings 2500)
        (failAt 1 (.transient "connection lost")) emptyDb).2
      = some (.transient "connection lost") ∧
    (ingestMeterBatch (demoMeterReadings 2500)
        (failAt 1 (.transient "connection lost")) emptyDb).1.meterHistory.length
      = emptyDb.meterHistory.length + 1000 := by
  have h := batch_chunking (demoMeterReadings 2500) emptyDb (.transient "connection lost")
    (demoMeterReadings_length 2500) (demoMeterReadings_take_nodup 2500)
  exact ⟨h.2.2.1, h.2.2.2.1, h.2.2.2.2.2.1⟩

theorem applyMeterChunk_history_growth (c : List MeterTelemetryDto) (d d' : Database)
    (h : applyMeterChunk c d = .ok d') :
    d'.meterHistory.length = d.meterHistory.length + c.length := by
  rw [(applyMeterChunk_ok_elim c d d' h).2.1]
  simp

theorem applyVehicleChunk_history_growth (c : List VehicleTelemetryDto) (d d' : Database)
    (h : applyVehicleChunk c d = .ok d') :
    d'.vehicleHistory.length = d.vehicleHistory.length + c.length := by
  rw [(applyVehicleChunk_ok_elim c d d' h).2.1]
  simp

/-- A fixed vehicle reading for concrete instantiations. -/
def demoVehicleReading : VehicleTelemetryDto :=
  { vehicleId := "VEHICLE_001", soc := 50, kwhDeliveredDc := 3,
    batteryTemp := none, timestamp := 0 }

/-- Number of `meter_telemetry_history` rows a given device id owns. -/
def meterHistCountFor (db : Database) (id : String) : ℕ :=
  (db.meterHistory.filter (fun h => h.meterId == id)).length

/-- Number of `vehicle_telemetry_history` rows a given device id owns. -/
def vehicleHistCountFor (db : Database) (id : String) : ℕ :=
  (db.vehicleHistory.filter (fun h => h.vehicleId == id)).length

/-- Claim C6: for every device, its history-row count (in either class's
table) never decreases under any ingestion operation; a successful
single-reading call grows the ingested device's count — and hence its class's
table — by exactly one, and a successful batch call of `n` readings grows the
class's table by exactly `n`, while the other class's history is untouched. -/
theorem history_count_invariant :
    (∀ (id : String) (d : MeterTelemetryDto) (fail : Option StorageError) (db : Database),
      meterHistCountFor db id ≤ meterHistCountFor (ingestMeterTelemetry d fail db).1 id ∧
      vehicleHistCountFor db id
        ≤ vehicleHistCountFor (ingestMeterTelemetry d fail db).1 id) ∧
    (∀ (id : String) (d : VehicleTelemetryDto) (fail : Option StorageError) (db : Database),
      vehicleHistCountFor db id
        ≤ vehicleHistCountFor (ingestVehicleTelemetry d fail db).1 id ∧
      meterHistCountFor db id ≤ meterHistCountFor (ingestVehicleTelemetry d fail db).1 id) ∧
    (∀ (id : String) (rs : List MeterTelemetryDto) (inj : ℕ → Option StorageError)
        (db : Database),
      meterHistCountFor db id ≤ meterHistCountFor (ingestMeterBatch rs inj db).1 id ∧
      vehicleHistCountFor db id ≤ vehicleHistCountFor (ingestMeterBatch rs inj db).1 id) ∧
    (∀ (id : String) (rs : List VehicleTelemetryDto) (inj : ℕ → Option StorageError)
        (db : Database),
      vehicleHistCountFor db id ≤ vehicleHistCountFor (ingestVehicleBatch rs inj db).1 id ∧
      meterHistCountFor db id ≤ meterHistCountFor (ingestVehicleBatch rs inj db).1 id) ∧
    (∀ (d : MeterTelemetryDto) (db : Database),
      meterHistCountFor (ingestMeterTelemetry d none db).1 d.meterId
        = meterHistCountFor db d.meterId + 1) ∧
    (∀ (d : VehicleTelemetryDto) (db : Database),
      vehicleHistCountFor (ingestVehicleTelemetry d none db).1 d.vehicleId
        = vehicleHistCountFor db d.vehicleId + 1) ∧
    (∀ (d : MeterTelemetryDto) (fail : Option StorageError) (db : Database),
      db.meterHistory.length ≤ (ingestMeterTelemetry d fail db).1.meterHistory.length ∧
      db.vehicleHistory.length ≤ (ingestMeterTelemetry d fail db).1.vehicleHistory.length) ∧
    (∀ (d : MeterTelemetryDto) (db : Database),
      (ingestMeterTelemetry d none db).1.meterHistory.length = db.meterHistory.length + 1) ∧
    (∀ (d : VehicleTelemetryDto) (fail : Option StorageError) (db : Database),
      db.vehicleHistory.length ≤ (ingestVehicleTelemetry d fail db).1.vehicleHistory.length ∧
      db.meterHistory.length ≤ (ingestVehicleTelemetry d fail db).1.meterHistory.length) ∧
    (∀ (d : VehicleTelemetryDto) (db : Database),
      (ingestVehicleTelemetry d none db).1.vehicleHistory.length
        = db.vehicleHistory.length + 1) ∧
    (∀ (rs : List MeterTelemetryDto) (inj : ℕ → Option StorageError) (db : Database),
      db.meterHistory.length ≤ (ingestMeterBatch rs inj db).1.meterHistory.length ∧
      db.vehicleHistory.length ≤ (ingestMeterBatch rs inj db).1.vehicleHistory.length) ∧
    (∀ (rs : List MeterTelemetryDto) (inj : ℕ → Option StorageError) (db : Database),
      (ingestMeterBatch rs inj db).2 = none →
      (ingestMeterBatch rs inj db).1.meterHistory.length
        = db.meterHistory.length + rs.length) ∧
    (∀ (rs : List VehicleTelemetryDto) (inj : ℕ → Option StorageError) (db : Database),
      db.vehicleHistory.length ≤ (ingestVehicleBatch rs inj db).1.vehicleHistory.length ∧
      db.meterHistory.length ≤ (ingestVehicleBatch rs inj db).1.meterHistory.length) ∧
    (∀ (rs : List VehicleTelemetryDto) (inj : ℕ → Option StorageError) (db : Database),
      (ingestVehicleBatch rs inj db).2 = none →
      (ingestVehicleBatch rs inj db).1.vehicleHistory.length
        = db.vehicleHistory.length + rs.length) := by
  have hmjoin : ∀ (id : String) (c : List MeterTelemetryDto) (d d' : Database),
      applyMeterChunk c d = .ok d' →
      meterHistCountFor d id ≤ meterHistCountFor d' id := by
    intro id c d d' h
    simp only [meterHistCountFor, (applyMeterChunk_ok_elim c d d' h).2.1,
      List.filter_append, List.length_append]
    omega
  have hvjoin : ∀ (id : String) (c : List VehicleTelemetryDto) (d d' : Database),
      applyVehicleChunk c d = .ok d' →
      vehicleHistCountFor d id ≤ vehicleHistCountFor d' id := by
    intro id c d d' h
    simp only [vehicleHistCountFor, (applyVehicleChunk_ok_elim c d d' h).2.1,
      List.filter_append, List.length_append]
    omega
  refine ⟨?_, ?_, ?_, ?_, ?_, ?_, ?_, ?_, ?_, ?_, ?_, ?_, ?_, ?_⟩
  · intro id d fail db
    cases fail with
    | some e => exact ⟨le_refl _, le_refl _⟩
    | none =>
      refine ⟨?_, le_refl _⟩
      simp only [ingestMeterTelemetry, meterHistCountFor, List.filter_append,
        List.length_append]
      omega
  · intro id d fail db
    cases fail with
    | some e => exact ⟨le_refl _, le_refl _⟩
    | none =>
      refine ⟨?_, le_refl _⟩
      simp only [ingestVehicleTelemetry, vehicleHistCountFor, List.filter_append,
        List.length_append]
      omega
  · intro id rs inj db
    constructor
    · exact runChunks_measure_mono (fun d => meterHistCountFor d id) applyMeterChunk
        (fun c d d' h => hmjoin id c d d' h) inj (chunksOf rs) 0 db
    · exact runChunks_measure_mono (fun d => vehicleHistCountFor d id) applyMeterChunk
        (fun c d d' h => by
          show vehicleHistCountFor d id ≤ vehicleHistCountFor d' id
          simp only [vehicleHistCountFor, (applyMeterChunk_ok_elim c d d' h).2.2.2]
          exact le_refl _) inj (chunksOf rs) 0 db
  · intro id rs inj db
    constructor
    · exact runChunks_measure_mono (fun d => vehicleHistCountFor d id) applyVehicleChunk
        (fun c d d' h => hvjoin id c d d' h) inj (chunksOf rs) 0 db
    · exact runChunks_measure_mono (fun d => meterHistCountFor d id) applyVehicleChunk
        (fun c d d' h => by
          show meterHistCountFor d id ≤ meterHistCountFor d' id
          simp only [meterHistCountFor, (applyVehicleChunk_ok_elim c d d' h).2.2.2]
          exact le_refl _) inj (chunksOf rs) 0 db
  · intro d db
    simp [ingestMeterTelemetry, meterHistCountFor, List.filter_append, mkMeterHistoryRow]
  · intro d db
    simp [ingestVehicleTelemetry, vehicleHistCountFor, List.filter_append,
      mkVehicleHistoryRow]
  · intro d fail db
    cases fail <;> simp [ingestMeterTelemetry]
  · intro d db
    simp [ingestMeterTelemetry]
  · intro d fail db
    cases fail <;> simp [ingestVehicleTelemetry]
  · intro d db
    simp [ingestVehicleTelemetry]
  · intro rs inj db
    constructor
    · exact runChunks_measure_mono (fun d => d.meterHistory.length) applyMeterChunk
        (fun c d d' h => by
          show d.meterHistory.length ≤ d'.meterHistory.length
          rw [applyMeterChunk_history_growth c d d' h]; omega)
        inj (chunksOf rs) 0 db
    · exact runChunks_measure_mono (fun d => d.vehicleHistory.length) applyMeterChunk
        (fun c d d' h => by
          show d.vehicleHistory.length ≤ d'.vehicleHistory.length
          rw [(applyMeterChunk_ok_elim c d d' h).2.2.2])
        inj (chunksOf rs) 0 db
  · intro rs inj db hok
    have hm := runChunks_success_measure (fun d => d.meterHistory.length)
      applyMeterChunk applyMeterChunk_history_growth inj (chunksOf rs) 0 db hok
    simpa [chunksOf_flatten] using hm
  · intro rs inj db
    constructor
    · exact runChunks_measure_mono (fun d => d.vehicleHistory.length) applyVehicleChunk
        (fun c d d' h => by
          show d.vehicleHistory.length ≤ d'.vehicleHistory.length
          rw [applyVehicleChunk_history_growth c d d' h]; omega)
        inj (chunksOf rs) 0 db
    · exact runChunks_measure_mono (fun d => d.meterHistory.length) applyVehicleChunk
        (fun c d d' h => by
          show d.meterHistory.length ≤ d'.meterHistory.length
          rw [(applyVehicleChunk_ok_elim c d d' h).2.2.2])
        inj (chunksOf rs) 0 db
  · intro rs inj db hok
    have hm := runChunks_success_measure (fun d => d.vehicleHistory.length)
      applyVehicleChunk applyVehicleChunk_history_growth inj (chunksOf rs) 0 db hok
    simpa [chunksOf_flatten] using hm

/-- Witness for `history_count_invariant`: concrete successful one-reading
batches of each class. -/
theorem history_count_invariant_witness :
    (ingestMeterBatch (demoMeterReadings 1) (fun _ => none) emptyDb).1.meterHistory.length
      = emptyDb.meterHistory.length + (demoMeterReadings 1).length ∧
    (ingestVehicleBatch [demoVehicleReading] (fun _ => none) emptyDb).1.vehicleHistory.length
      = emptyDb.vehicleHistory.length + 1 := by
  have hlist : demoMeterReadings 1 = [demoMeterReading 0] := rfl
  have hm : (ingestMeterBatch (demoMeterReadings 1) (fun _ => none) emptyDb).2 = none := by
    rw [ingestMeterBatch, hlist,
      chunksOf_single [demoMeterReading 0] (by simp) (by simp [batchSize])]
    rw [runChunks, applyMeterChunk, if_pos (by simp)]
    rfl
  have hv : (ingestVehicleBatch [demoVehicleReading] (fun _ => none) emptyDb).2 = none := by
    rw [ingestVehicleBatch,
      chunksOf_single [demoVehicleReading] (by simp) (by simp [batchSize])]
    rw [runChunks, applyVehicleChunk, if_pos (by simp)]
    rfl
  obtain ⟨-, -, -, -, -, -, -, -, -, -, -, hB6, -, hB8⟩ := history_count_invariant
  constructor
  · exact hB6 (demoMeterReadings 1) (fun _ => none) emptyDb hm
  · have h := hB8 [demoVehicleReading] (fun _ => none) emptyDb hv
    simpa using h

/-- Counterexample to claim C7: a chunk whose two readings share a meter id
does not succeed with last-write-wins — the multi-row upsert raises the
Postgres cardinality-violation error, the chunk's transaction rolls back, and
no current-status row for the duplicated id exists afterwards. -/
theorem bulk_upsert_duplicate_key_counterexample :
    ingestMeterBatch
        [{ meterId := "METER_001", kwhConsumedAc := 1, voltage := 230, timestamp := 0 },
          { meterId := "METER_001", kwhConsumedAc := 2, voltage := 231, timestamp := 60000 }]
        (fun _ => none) emptyDb
      = (emptyDb, some .onConflictCardinalityViolation) ∧
    lookupByKey (·.meterId) emptyDb.currentMeter "METER_001" = none := by
  constructor
  · rw [ingestMeterBatch, chunksOf_single _ (by simp) (by simp [batchSize])]
    rw [runChunks, applyMeterChunk, if_neg (by simp)]
  · rfl

/-- Claim C7, amended: within one chunk the bulk current-status upsert behaves
as follows — if two readings of the chunk share a device id the whole chunk
fails with the Postgres cardinality-violation error (no last-write-wins
resolution), and if the chunk's device ids are pairwise distinct the chunk
commits, with each device's current-status row holding the values of its
(unique) reading and the chunk's history rows appended in order.  Stated for
both device classes. -/
theorem bulk_upsert_within_chunk (batch : List MeterTelemetryDto)
    (vbatch : List VehicleTelemetryDto) (db : Database) :
    (¬ (batch.map (·.meterId)).Nodup →
      applyMeterChunk batch db = .error .onConflictCardinalityViolation) ∧
    ((batch.map (·.meterId)).Nodup →
      ∃ db', applyMeterChunk batch db = .ok db' ∧
        (∀ r ∈ batch, lookupByKey (·.meterId) db'.currentMeter r.meterId
          = some (mkCurrentMeterStatus r)) ∧
        db'.meterHistory = db.meterHistory ++ batch.map mkMeterHistoryRow) ∧
    (¬ (vbatch.map (·.vehicleId)).Nodup →
      applyVehicleChunk vbatch db = .error .onConflictCardinalityViolation) ∧
    ((vbatch.map (·.vehicleId)).Nodup →
      ∃ db', applyVehicleChunk vbatch db = .ok db' ∧
        (∀ r ∈ vbatch, lookupByKey (·.vehicleId) db'.currentVehicle r.vehicleId
          = some (mkCurrentVehicleStatus r)) ∧
        db'.vehicleHistory = db.vehicleHistory ++ vbatch.map mkVehicleHistoryRow) := by
  refine ⟨?_, ?_, ?_, ?_⟩
  · intro h
    rw [applyMeterChunk, if_neg h]
  · intro h
    refine ⟨_, applyMeterChunk_ok batch db h, ?_, rfl⟩
    intro r hr
    have hnd : ((batch.map mkCurrentMeterStatus).map (·.meterId)).Nodup := by
      rw [List.map_map]
      exact h
    exact lookupByKey_foldl_upsert_self (·.meterId) (batch.map mkCurrentMeterStatus)
      db.currentMeter hnd (mkCurrentMeterStatus r) (List.mem_map_of_mem _ hr)
  · intro h
    rw [applyVehicleChunk, if_neg h]
  · intro h
    refine ⟨_, applyVehicleChunk_ok vbatch db h, ?_, rfl⟩
    intro r hr
    have hnd : ((vbatch.map mkCurrentVehicleStatus).map (·.vehicleId)).Nodup := by
      rw [List.map_map]
      exact h
    exact lookupByKey_foldl_upsert_self (·.vehicleId) (vbatch.map mkCurrentVehicleStatus)
      db.currentVehicle hnd (mkCurrentVehicleStatus r) (List.mem_map_of_mem _ hr)

/-- Witness for `bulk_upsert_within_chunk`: a duplicate-id chunk fails, a
distinct-id chunk commits with each reading's values visible. -/
theorem bulk_upsert_within_chunk_witness :
    applyMeterChunk [demoMeterReading 0, demoMeterReading 0] emptyDb
      = .error .onConflictCardinalityViolation ∧
    (∃ db', applyMeterChunk [demoMeterReading 0, demoMeterReading 1] emptyDb = .ok db' ∧
      (∀ r ∈ [demoMeterReading 0, demoMeterReading 1],
        lookupByKey (·.meterId) db'.currentMeter r.meterId
          = some (mkCurrentMeterStatus r)) ∧
      db'.meterHistory
        = emptyDb.meterHistory
            ++ [demoMeterReading 0, demoMeterReading 1].map mkMeterHistoryRow) := by
  constructor
  · exact (bulk_upsert_within_chunk [demoMeterReading 0, demoMeterReading 0] [] emptyDb).1
      (by simp [demoMeterReading])
  · exact (bulk_upsert_within_chunk [demoMeterReading 0, demoMeterReading 1] [] emptyDb).2.1
      (by simp [demoMeterReading])

/-- Counterexample to claim C8: the caller-visible outcome of a failed batch
carries no partial-progress information.  Two runs whose committed progress
differs (0 chunks vs 1 chunk, i.e. 0 vs 1000 committed history rows) return
the identical outcome value — the bare propagated storage error — so the
result reports neither how many chunks were committed nor which chunk
failed. -/
theorem batch_failure_reporting_counterexample :
    (ingestMeterBatch (demoMeterReadings 1500)
        (failAt 0 (.transient "connection lost")) emptyDb).2
      = (ingestMeterBatch (demoMeterReadings 2500)
          (failAt 1 (.transient "connection lost")) emptyDb).2 ∧
    (ingestMeterBatch (demoMeterReadings 1500)
        (failAt 0 (.transient "connection lost")) emptyDb).1.meterHistory.length = 0 ∧
    (ingestMeterBatch (demoMeterReadings 2500)
        (failAt 1 (.transient "connection lost")) emptyDb).1.meterHistory.length = 1000 := by
  have hne : demoMeterReadings 1500 ≠ [] := by
    apply List.ne_nil_of_length_pos
    rw [demoMeterReadings_length]
    norm_num
  have h1 := ingestMeterBatch_fail_unit1 (demoMeterReadings 1500) emptyDb
    (.transient "connection lost") hne
  have h2 := ingestMeterBatch_fail_unit2 (demoMeterReadings 2500) emptyDb
    (.transient "connection lost")
    (by rw [demoMeterReadings_length]; simp [batchSize])
    (demoMeterReadings_take_nodup 2500)
  refine ⟨?_, ?_, ?_⟩
  · rw [h1, h2]
  · rw [h1]
    rfl
  · rw [h2]
    simp [List.length_take, demoMeterReadings_length, batchSize, emptyDb]

/-- Claim C8, amended: when a batch fails part-way, chunks committed before
the failing chunk stay committed (each applied exactly once, no automatic
retry) and later chunks are never attempted, but the caller receives only the
propagated storage error, unchanged — the outcome carries no count of
committed chunks and no failing-chunk index. -/
theorem batch_failure_propagation (rs : List MeterTelemetryDto) (db : Database)
    (e : StorageError) :
    (rs ≠ [] → ingestMeterBatch rs (failAt 0 e) db = (db, some e)) ∧
    (batchSize < rs.length → ((rs.take batchSize).map (·.meterId)).Nodup →
      (ingestMeterBatch rs (failAt 1 e) db).2 = some e ∧
      (ingestMeterBatch rs (failAt 1 e) db).1.meterHistory
        = db.meterHistory ++ (rs.take batchSize).map mkMeterHistoryRow ∧
      (ingestMeterBatch rs (failAt 1 e) db).1.vehicleHistory = db.vehicleHistory) := by
  constructor
  · exact ingestMeterBatch_fail_unit1 rs db e
  · intro hlen hnodup
    rw [ingestMeterBatch_fail_unit2 rs db e hlen hnodup]
    exact ⟨rfl, rfl, rfl⟩

/-- Witness for `batch_failure_propagation` at a concrete 1001-reading batch
with distinct ids. -/
theorem batch_failure_propagation_witness :
    ingestMeterBatch (demoMeterReadings 1)
        (failAt 0 (.transient "timeout")) emptyDb
      = (emptyDb, some (.transient "timeout")) ∧
    (ingestMeterBatch (demoMeterReadings 1001)
        (failAt 1 (.transient "timeout")) emptyDb).2 = some (.transient "timeout") := by
  constructor
  · exact (batch_failure_propagation (demoMeterReadings 1) emptyDb (.transient "timeout")).1
      (by apply List.ne_nil_of_length_pos; rw [demoMeterReadings_length]; norm_num)
  · exact ((batch_failure_propagation (demoMeterReadings 1001) emptyDb
      (.transient "timeout")).2
      (by rw [demoMeterReadings_length]; simp [batchSize])
      (demoMeterReadings_take_nodup 1001)).1

/-! ### Analytics (`AnalyticsService`)

`getVehiclePerformance24h` and `getVehiclePerformanceWithMeter` have textually
identical bodies except that the latter appends `AND meter_id = $3` to the
meter aggregate when a `meterId` argument is present; both are embedded as
instances of one core function over an optional meter filter. -/

/-- Health tier of `PerformanceAnalyticsDto.healthStatus`. -/
inductive HealthStatus
  | healthy
  | degraded
  | critical
deriving DecidableEq

/-- Exception `NotFoundException` is the only analytics error distinguished by the
service (anything else is rethrown to the framework). -/
inductive AnalyticsError
  | notFound
deriving DecidableEq

/-- Dto `PerformanceAnalyticsDto` (src/dto/performance-analytics.dto.ts). -/
structure PerformanceAnalyticsDto where
  vehicleId : String
  periodStart : ℤ
  periodEnd : ℤ
  totalKwhConsumedAc : ℚ
  totalKwhDeliveredDc : ℚ
  efficiencyRatio : ℚ
  avgBatteryTemp : ℚ
  readingCount : ℕ
  healthStatus : HealthStatus
deriving DecidableEq

/-- Sum of a list of numbers (SQL `SUM` over the matched rows). -/
def qsum (l : List ℚ) : ℚ := l.foldl (· + ·) 0

/-- SQL `MIN(timestamp)` over a group known to be nonempty (the `[]` default
is unreachable at its use site). -/
def zminD : List ℤ → ℤ
  | [] => 0
  | x :: xs => xs.foldl min x

/-- SQL `MAX(timestamp)` over a group known to be nonempty. -/
def zmaxD : List ℤ → ℤ
  | [] => 0
  | x :: xs => xs.foldl max x

/-- The `24 * 60 * 60 * 1000` milliseconds subtracted from `now` to obtain the
window start. -/
def window24hMs : ℤ := 24 * 60 * 60 * 1000

/-- Rows matched by the vehicle aggregate query:
`WHERE vehicle_id = $1 AND timestamp >= $2 AND timestamp <= $3`. -/
def vehicleRowsInWindow (db : Database) (vehicleId : String) (lo hi : ℤ) :
    List VehicleTelemetryHistory :=
  db.vehicleHistory.filter fun h =>
    h.vehicleId == vehicleId && decide (lo ≤ h.timestamp) && decide (h.timestamp ≤ hi)

/-- Rows matched by the meter aggregate query:
`WHERE timestamp >= $1 AND timestamp <= $2` plus, only when the caller
supplied a meter id, `AND meter_id = $3`. -/
def meterRowsInWindow (db : Database) (meterFilter : Option String) (lo hi : ℤ) :
    List MeterTelemetryHistory :=
  db.meterHistory.filter fun h =>
    (match meterFilter with
      | none => true
      | some m => h.meterId == m)
      && decide (lo ≤ h.timestamp) && decide (h.timestamp ≤ hi)

/-- The inline efficiency computation of both analytics methods:
`totalKwhConsumedAc > 0 ? totalKwhDeliveredDc / totalKwhConsumedAc : 0`. -/
def effRatio (totalKwhConsumedAc totalKwhDeliveredDc : ℚ) : ℚ :=
  if 0 < totalKwhConsumedAc then totalKwhDeliveredDc / totalKwhConsumedAc else 0

/-- The inline health-tier chain of both analytics methods:
`>= 0.85` healthy, `else >= 0.75` degraded, else critical. -/
def classifyHealth (efficiencyRatio : ℚ) : HealthStatus :=
  if (0.85 : ℚ) ≤ efficiencyRatio then .healthy
  else if (0.75 : ℚ) ≤ efficiencyRatio then .degraded
  else .critical

/-- JS `Number.prototype.toFixed(digits)` at the reporting boundary, as decimal
round-to-nearest. -/
def roundTo (digits : ℕ) (q : ℚ) : ℚ :=
  ((round (q * (10 : ℚ) ^ digits) : ℤ) : ℚ) / (10 : ℚ) ^ digits

theorem roundTo_zero (digits : ℕ) : roundTo digits 0 = 0 := by
  simp [roundTo]

/-- Common body of the two analytics methods.  The vehicle aggregate
(`COUNT / SUM / AVG / MIN / MAX ... GROUP BY vehicle_id`) returns no row when
no history matches, which the service turns into `NotFoundException`; the
meter aggregate (`SUM` without `GROUP BY`) returns a `NULL` sum for zero rows,
which `parseFloat(...) || 0` turns into `0`.  SQL `AVG(battery_temp)` averages
the non-null values and is `NULL` when all are null, again defaulted to `0`
via `parseFloat(...) || 0`. -/
def getVehiclePerformanceCore (vehicleId : String) (meterFilter : Option String)
    (now : ℤ) (db : Database) : Except AnalyticsError PerformanceAnalyticsDto :=
  let windowStart := now - window24hMs
  let rows := vehicleRowsInWindow db vehicleId windowStart now
  if rows.isEmpty then
    .error .notFound
  else
    let totalKwhDeliveredDc := qsum (rows.map (·.kwhDeliveredDc))
    let temps := rows.filterMap (·.batteryTemp)
    let avgBatteryTemp : Option ℚ :=
      if temps.isEmpty then none else some (qsum temps / (temps.length : ℚ))
    let mrows := meterRowsInWindow db meterFilter windowStart now
    let acSum : Option ℚ :=
      if mrows.isEmpty then none else some (qsum (mrows.map (·.kwhConsumedAc)))
    let totalKwhConsumedAc := acSum.getD 0
    let efficiencyRatio := effRatio totalKwhConsumedAc totalKwhDeliveredDc
    .ok
      { vehicleId := vehicleId
        periodStart := zminD (rows.map (·.timestamp))
        periodEnd := zmaxD (rows.map (·.timestamp))
        totalKwhConsumedAc := roundTo 3 totalKwhConsumedAc
        totalKwhDeliveredDc := roundTo 3 totalKwhDeliveredDc
        efficiencyRatio := roundTo 4 efficiencyRatio
        avgBatteryTemp := roundTo 2 (avgBatteryTemp.getD 0)
        readingCount := rows.length
        healthStatus := classifyHealth efficiencyRatio }

/-- Method `AnalyticsService.getVehiclePerformance24h`: no meter filter — the meter
aggregate ranges over the whole fleet. -/
def getVehiclePerformance24h (vehicleId : String) (now : ℤ) (db : Database) :
    Except AnalyticsError PerformanceAnalyticsDto :=
  getVehiclePerformanceCore vehicleId none now db

/-- Method `AnalyticsService.getVehiclePerformanceWithMeter`: optional meter
filter. -/
def getVehiclePerformanceWithMeter (vehicleId : String) (meterFilter : Option String)
    (now : ℤ) (db : Database) : Except AnalyticsError PerformanceAnalyticsDto :=
  getVehiclePerformanceCore vehicleId meterFilter now db

/-- Claim C3: the efficiency classification divides only when the source
energy is positive and otherwise yields the defined ratio 0; the tiers are
`ratio ≥ 0.85` healthy, `0.75 ≤ ratio < 0.85` degraded, `ratio < 0.75`
critical; in particular 0.85 is healthy, 0.8499 degraded, 0.7499 critical,
and zero source energy gives ratio 0, classified critical. -/
theorem efficiency_classification (s d r : ℚ) :
    (0 < s → effRatio s d = d / s) ∧
    (¬ 0 < s → effRatio s d = 0) ∧
    ((0.85 : ℚ) ≤ r → classifyHealth r = .healthy) ∧
    ((0.75 : ℚ) ≤ r → r < (0.85 : ℚ) → classifyHealth r = .degraded) ∧
    (r < (0.75 : ℚ) → classifyHealth r = .critical) ∧
    classifyHealth (0.85 : ℚ) = .healthy ∧
    classifyHealth (0.8499 : ℚ) = .degraded ∧
    classifyHealth (0.7499 : ℚ) = .critical ∧
    effRatio 0 d = 0 ∧
    classifyHealth (effRatio 0 d) = .critical := by
  refine ⟨fun h => by rw [effRatio, if_pos h],
    fun h => by rw [effRatio, if_neg h],
    fun h => by rw [classifyHealth, if_pos h],
    fun h1 h2 => by rw [classifyHealth, if_neg (by linarith), if_pos h1],
    fun h => by rw [classifyHealth, if_neg (by linarith), if_neg (by linarith)],
    by rw [classifyHealth, if_pos (by norm_num)],
    by rw [classifyHealth, if_neg (by norm_num), if_pos (by norm_num)],
    by rw [classifyHealth, if_neg (by norm_num), if_neg (by norm_num)],
    by rw [effRatio, if_neg (lt_irrefl 0)],
    by rw [effRatio, if_neg (lt_irrefl 0), classifyHealth,
      if_neg (by norm_num), if_neg (by norm_num)]⟩

/-- Witness for `efficiency_classification` at concrete ratios in each
tier. -/
theorem efficiency_classification_witness :
    effRatio 2 1 = 1 / 2 ∧
    classifyHealth (9 / 10) = .healthy ∧
    classifyHealth (8 / 10) = .degraded ∧
    classifyHealth (1 / 2) = .critical := by
  refine ⟨(efficiency_classification 2 1 (9 / 10)).1 (by norm_num), ?_, ?_, ?_⟩
  · exact (efficiency_classification 2 1 (9 / 10)).2.2.1 (by norm_num)
  · exact (efficiency_classification 2 1 (8 / 10)).2.2.2.1 (by norm_num) (by norm_num)
  · exact (efficiency_classification 2 1 (1 / 2)).2.2.2.2.1 (by norm_num)

/-- Aggregate `SUM(kwh_consumed_ac)` over the rows the meter query matches, after the
service's `parseFloat(...) || 0` defaulting (a `NULL` sum from zero rows
becomes 0). -/
def fleetAcInWindow (db : Database) (meterFilter : Option String) (lo hi : ℤ) : ℚ :=
  qsum ((meterRowsInWindow db meterFilter lo hi).map (·.kwhConsumedAc))

/-- Aggregate `SUM(kwh_delivered_dc)` over the vehicle rows in the window. -/
def dcInWindow (db : Database) (vehicleId : String) (lo hi : ℤ) : ℚ :=
  qsum ((vehicleRowsInWindow db vehicleId lo hi).map (·.kwhDeliveredDc))

theorem optSumGetD (mr : List MeterTelemetryHistory) :
    ((if mr.isEmpty then none else some (qsum (mr.map (·.kwhConsumedAc)))) : Option ℚ).getD 0
      = qsum (mr.map (·.kwhConsumedAc)) := by
  cases mr <;> simp [qsum]

/-- Evaluation of the analytics core when the vehicle aggregate matches at
least one row. -/
theorem getVehiclePerformanceCore_eq_ok (vehicleId : String)
    (meterFilter : Option String) (now : ℤ) (db : Database)
    (hne : vehicleRowsInWindow db vehicleId (now - window24hMs) now ≠ []) :
    getVehiclePerformanceCore vehicleId meterFilter now db = .ok
      { vehicleId := vehicleId
        periodStart :=
          zminD ((vehicleRowsInWindow db vehicleId (now - window24hMs) now).map (·.timestamp))
        periodEnd :=
          zmaxD ((vehicleRowsInWindow db vehicleId (now - window24hMs) now).map (·.timestamp))
        totalKwhConsumedAc := roundTo 3 (fleetAcInWindow db meterFilter (now - window24hMs) now)
        totalKwhDeliveredDc := roundTo 3 (dcInWindow db vehicleId (now - window24hMs) now)
        efficiencyRatio := roundTo 4 (effRatio
          (fleetAcInWindow db meterFilter (now - window24hMs) now)
          (dcInWindow db vehicleId (now - window24hMs) now))
        avgBatteryTemp := roundTo 2
          ((if ((vehicleRowsInWindow db vehicleId (now - window24hMs) now).filterMap
                (·.batteryTemp)).isEmpty then (none : Option ℚ)
            else some
              (qsum ((vehicleRowsInWindow db vehicleId (now - window24hMs) now).filterMap
                  (·.batteryTemp))
                / (((vehicleRowsInWindow db vehicleId (now - window24hMs) now).filterMap
                    (·.batteryTemp)).length : ℚ))).getD 0)
        readingCount := (vehicleRowsInWindow db vehicleId (now - window24hMs) now).length
        healthStatus := classifyHealth (effRatio
          (fleetAcInWindow db meterFilter (now - window24hMs) now)
          (dcInWindow db vehicleId (now - window24hMs) now)) } := by
  have hee : (vehicleRowsInWindow db vehicleId (now - window24hMs) now).isEmpty = false := by
    cases hh : (vehicleRowsInWindow db vehicleId (now - window24hMs) now).isEmpty
    · rfl
    · exact absurd (List.isEmpty_iff.mp hh) hne
  rw [getVehiclePerformanceCore]
  simp only [hee, Bool.false_eq_true, if_false, optSumGetD, fleetAcInWindow, dcInWindow]

/-- Claim C4: report assembly is asymmetric — an empty vehicle aggregate is a
NotFound error, while an empty meter aggregate still succeeds with
`totalKwhConsumedAc = 0`, ratio 0 and the critical tier. -/
theorem report_asymmetry (vehicleId : String) (now : ℤ) (db : Database) :
    (vehicleRowsInWindow db vehicleId (now - window24hMs) now = [] →
      getVehiclePerformance24h vehicleId now db = .error .notFound) ∧
    (vehicleRowsInWindow db vehicleId (now - window24hMs) now ≠ [] →
      meterRowsInWindow db none (now - window24hMs) now = [] →
      ∃ rep, getVehiclePerformance24h vehicleId now db = .ok rep ∧
        rep.totalKwhConsumedAc = 0 ∧
        rep.efficiencyRatio = 0 ∧
        rep.healthStatus = .critical) := by
  constructor
  · intro h
    rw [getVehiclePerformance24h, getVehiclePerformanceCore]
    simp [h]
  · intro hne hm
    have hac : fleetAcInWindow db none (now - window24hMs) now = 0 := by
      rw [fleetAcInWindow, hm]
      rfl
    refine ⟨_, getVehiclePerformanceCore_eq_ok vehicleId none now db hne, ?_, ?_, ?_⟩
    · show roundTo 3 (fleetAcInWindow db none (now - window24hMs) now) = 0
      rw [hac, roundTo_zero]
    · show roundTo 4 (effRatio (fleetAcInWindow db none (now - window24hMs) now) _) = 0
      rw [hac, effRatio, if_neg (lt_irrefl 0), roundTo_zero]
    · show classifyHealth (effRatio (fleetAcInWindow db none (now - window24hMs) now) _)
        = .critical
      rw [hac, effRatio, if_neg (lt_irrefl 0), classifyHealth,
        if_neg (by norm_num), if_neg (by norm_num)]

/-- A vehicle history row used for concrete analytics instantiations. -/
def demoVehicleRow : VehicleTelemetryHistory :=
  { vehicleId := "VEHICLE_001", soc := 85.5, kwhDeliveredDc := 3,
    batteryTemp := none, timestamp := 0, status := .valid }

/-- A database holding exactly one vehicle history row and no meter data. -/
def dbVehicleOnly : Database :=
  { currentMeter := [], currentVehicle := [], meterHistory := [],
    vehicleHistory := [demoVehicleRow] }

/-- Witness for `report_asymmetry`: no vehicle data yields NotFound; vehicle
data with no meter data yields a critical report, not an error. -/
theorem report_asymmetry_witness :
    getVehiclePerformance24h "VEHICLE_001" 0 emptyDb = .error .notFound ∧
    (∃ rep, getVehiclePerformance24h "VEHICLE_001" 0 dbVehicleOnly = .ok rep ∧
      rep.totalKwhConsumedAc = 0 ∧
      rep.efficiencyRatio = 0 ∧
      rep.healthStatus = .critical) := by
  constructor
  · exact (report_asymmetry "VEHICLE_001" 0 emptyDb).1 rfl
  · exact (report_asymmetry "VEHICLE_001" 0 dbVehicleOnly).2 (by decide) rfl

/-- Claim C9: without a meter correlation hint the meter aggregate is the
fleet-wide sum — every meter row in the window, regardless of device — and
that sum is the denominator of the requested vehicle's efficiency ratio; only
with a hint is the aggregate restricted to the named meter.  The
no-hint variant of `getVehiclePerformanceWithMeter` coincides with
`getVehiclePerformance24h`. -/
theorem fleet_wide_meter_aggregation (vehicleId m : String) (now : ℤ) (db : Database)
    (hne : vehicleRowsInWindow db vehicleId (now - window24hMs) now ≠ []) :
    (∃ rep, getVehiclePerformance24h vehicleId now db = .ok rep ∧
      rep.totalKwhConsumedAc = roundTo 3 (fleetAcInWindow db none (now - window24hMs) now) ∧
      rep.efficiencyRatio = roundTo 4 (effRatio
        (fleetAcInWindow db none (now - window24hMs) now)
        (dcInWindow db vehicleId (now - window24hMs) now)) ∧
      rep.healthStatus = classifyHealth (effRatio
        (fleetAcInWindow db none (now - window24hMs) now)
        (dcInWindow db vehicleId (now - window24hMs) now))) ∧
    meterRowsInWindow db none (now - window24hMs) now
      = db.meterHistory.filter (fun h =>
          decide ((now - window24hMs) ≤ h.timestamp) && decide (h.timestamp ≤ now)) ∧
    (∃ rep, getVehiclePerformanceWithMeter vehicleId (some m) now db = .ok rep ∧
      rep.totalKwhConsumedAc
        = roundTo 3 (fleetAcInWindow db (some m) (now - window24hMs) now)) ∧
    (∀ h ∈ meterRowsInWindow db (some m) (now - window24hMs) now, h.meterId = m) ∧
    getVehiclePerformanceWithMeter vehicleId none now db
      = getVehiclePerformance24h vehicleId now db := by
  refine ⟨⟨_, getVehiclePerformanceCore_eq_ok vehicleId none now db hne, rfl, rfl, rfl⟩,
    ?_, ⟨_, getVehiclePerformanceCore_eq_ok vehicleId (some m) now db hne, rfl⟩, ?_, rfl⟩
  · simp [meterRowsInWindow]
  · intro h hh
    rw [meterRowsInWindow, List.mem_filter] at hh
    have := hh.2
    simp only [Bool.and_eq_true, beq_iff_eq] at this
    exact this.1.1

/-- A database with one vehicle row and two meter rows from different
meters, all inside the window. -/
def dbTwoMeters : Database :=
  { currentMeter := [], currentVehicle := [],
    meterHistory :=
      [{ meterId := "METER_001", kwhConsumedAc := 2, voltage := 230,
          timestamp := 0, status := .valid },
        { meterId := "METER_002", kwhConsumedAc := 3, voltage := 231,
          timestamp := 0, status := .valid }],
    vehicleHistory := [demoVehicleRow] }

/-- Witness for `fleet_wide_meter_aggregation` on a fleet of two meters. -/
theorem fleet_wide_meter_aggregation_witness :
    (∃ rep, getVehiclePerformance24h "VEHICLE_001" 0 dbTwoMeters = .ok rep ∧
      rep.totalKwhConsumedAc
        = roundTo 3 (fleetAcInWindow dbTwoMeters none (0 - window24hMs) 0)) ∧
    (∀ h ∈ meterRowsInWindow dbTwoMeters (some "METER_001") (0 - window24hMs) 0,
      h.meterId = "METER_001") := by
  have h := fleet_wide_meter_aggregation "VEHICLE_001" "METER_001" 0 dbTwoMeters (by decide)
  obtain ⟨⟨rep, h1, h2, _⟩, _, _, h4, _⟩ := h
  exact ⟨⟨rep, h1, h2⟩, h4⟩

/-- Claim C10: a window whose vehicle readings all lack a battery temperature
reports `avgBatteryTemp = 0` (not null, not an error), and a reading ingested
without `batteryTemp` is stored as null in both the current-status row and
the history row. -/
theorem null_battery_temp (dv : VehicleTelemetryDto) (vehicleId : String)
    (now : ℤ) (db : Database) :
    (vehicleRowsInWindow db vehicleId (now - window24hMs) now ≠ [] →
      (∀ h ∈ vehicleRowsInWindow db vehicleId (now - window24hMs) now,
        h.batteryTemp = none) →
      ∃ rep, getVehiclePerformance24h vehicleId now db = .ok rep ∧
        rep.avgBatteryTemp = 0) ∧
    (dv.batteryTemp = none →
      (mkCurrentVehicleStatus dv).batteryTemp = none ∧
      (mkVehicleHistoryRow dv).batteryTemp = none ∧
      (ingestVehicleTelemetry dv none db).1.vehicleHistory
        = db.vehicleHistory ++ [mkVehicleHistoryRow dv] ∧
      lookupByKey (·.vehicleId) (ingestVehicleTelemetry dv none db).1.currentVehicle
          dv.vehicleId
        = some (mkCurrentVehicleStatus dv)) := by
  constructor
  · intro hne hall
    have htemps : (vehicleRowsInWindow db vehicleId (now - window24hMs) now).filterMap
        (·.batteryTemp) = [] :=
      List.filterMap_eq_nil_iff.mpr hall
    refine ⟨_, getVehiclePerformanceCore_eq_ok vehicleId none now db hne, ?_⟩
    show roundTo 2 _ = 0
    rw [htemps]
    simp [roundTo_zero]
  · intro h
    refine ⟨h, h, rfl, ?_⟩
    exact lookupByKey_upsertByKey_self (·.vehicleId) db.currentVehicle
      (mkCurrentVehicleStatus dv)

/-- Witness for `null_battery_temp` on the one-row database whose only
reading has no battery temperature. -/
theorem null_battery_temp_witness :
    (∃ rep, getVehiclePerformance24h "VEHICLE_001" 0 dbVehicleOnly = .ok rep ∧
      rep.avgBatteryTemp = 0) ∧
    (mkCurrentVehicleStatus demoVehicleReading).batteryTemp = none ∧
    (mkVehicleHistoryRow demoVehicleReading).batteryTemp = none := by
  have h2 := (null_battery_temp demoVehicleReading "VEHICLE_001" 0 dbVehicleOnly).2 rfl
  exact ⟨(null_battery_temp demoVehicleReading "VEHICLE_001" 0 dbVehicleOnly).1
    (by decide) (by decide), h2.1, h2.2.1⟩

end EnergyEngine
